import Mathlib

/-!
Shallow embedding of the finance dashboard core (tax estimator, summary
aggregation, projection engine, period report aggregator, recurrence
resolver) together with theorems settling the frozen claims about it.
Currency amounts are modelled as rationals; dates as year/month/day records
mirroring the JavaScript Date accessors used by the source.
-/

namespace Finance

/-- Calendar date as seen through the JavaScript Date accessors used in the
source: `year` is the full year, `month` is the zero-based month index
(0 = January, 11 = December) and `day` is the day of month. -/
structure SDate where
  year : Int
  month : Nat
  day : Nat
deriving DecidableEq, Repr

/-- Gregorian leap-year rule of the JavaScript Date object that the source
manipulates through the date-fns helpers. -/
def isLeap (y : Int) : Bool :=
  y % 4 == 0 && (y % 100 != 0 || y % 400 == 0)

/-- Number of days of the zero-based month `m` of year `y`. -/
def daysInMonth (y : Int) (m : Nat) : Nat :=
  if m = 1 then (if isLeap y then 29 else 28)
  else if m = 3 ∨ m = 5 ∨ m = 8 ∨ m = 10 then 30
  else 31

/-- Embedding of the date-fns `addMonths` helper called by `getEndDate` in
the source: the month index advances by `n` with overflow rolling into the
year, and the day of month is clamped to the last day of the target month
when the original day does not exist there, which is the documented
behaviour of the library. -/
def addMonths (d : SDate) (n : Nat) : SDate :=
  let total := d.month + n
  let y := d.year + ((total / 12 : Nat) : Int)
  let m := total % 12
  ⟨y, m, min d.day (daysInMonth y m)⟩

/-- `getEndDate` of the source (line 124): the recurrence end is the start
date advanced by `installments - 1` months.  The source formats the result
as an MM/yyyy string for display; the date value itself is modelled here. -/
def getEndDate (startDate : SDate) (installments : Nat) : SDate :=
  addMonths startDate (installments - 1)

/-- The four transaction type tags of the source data model. -/
inductive TType where
  | income
  | variable_income
  | fixed_expense
  | variable_expense
deriving DecidableEq, Repr

/-- Transaction record of the source data model (`types.ts`).  The optional
`installments` and `start_date` fields are only populated for recurring
transactions. -/
structure Transaction where
  id : Nat
  description : String
  amount : ℚ
  type : TType
  category : String
  date : SDate
  is_recurring : Bool
  installments : Option Nat
  start_date : Option SDate
deriving DecidableEq, Repr

/-- Summary snapshot of the source data model (`types.ts`).  The source
field named `variable` is a Lean keyword and is embedded as `variable_`. -/
structure Summary where
  income : ℚ
  variable_income : ℚ
  fixed : ℚ
  variable_ : ℚ
  invested : ℚ
deriving DecidableEq, Repr

/-- INSS pension contribution computed by `calculateTaxes`
(source lines 163 to 168). -/
def inss (grossIncome : ℚ) : ℚ :=
  if grossIncome ≤ 1412 then grossIncome * 0.075
  else if grossIncome ≤ 2666.68 then 1412 * 0.075 + (grossIncome - 1412) * 0.09
  else if grossIncome ≤ 4000.03 then
    1412 * 0.075 + 1254.68 * 0.09 + (grossIncome - 2666.68) * 0.12
  else if grossIncome ≤ 7786.02 then
    1412 * 0.075 + 1254.68 * 0.09 + 1333.35 * 0.12 + (grossIncome - 4000.03) * 0.14
  else 908.85

/-- IRPF income tax computed by `calculateTaxes` as a function of the
taxable base `baseCalculo = grossIncome - inss` (source lines 171 to 177). -/
def irpf (baseCalculo : ℚ) : ℚ :=
  if baseCalculo ≤ 2259.20 then 0
  else if baseCalculo ≤ 2826.65 then baseCalculo * 0.075 - 169.44
  else if baseCalculo ≤ 3751.05 then baseCalculo * 0.15 - 381.44
  else if baseCalculo ≤ 4664.68 then baseCalculo * 0.225 - 662.77
  else baseCalculo * 0.275 - 896.00

/-- Result record of `calculateTaxes`. -/
structure TaxResult where
  inss : ℚ
  irpf : ℚ
  net : ℚ
deriving DecidableEq, Repr

/-- `calculateTaxes` of the source (lines 161 to 180): pension contribution,
income tax on the remaining base, and net income. -/
def calculateTaxes (grossIncome : ℚ) : TaxResult :=
  let i := inss grossIncome
  let baseCalculo := grossIncome - i
  let t := irpf baseCalculo
  ⟨i, t, grossIncome - i - t⟩

/-- `reduce((sum, t) => sum + t.amount, 0)`, the amount summation used
throughout the source. -/
def sumAmounts (l : List Transaction) : ℚ :=
  l.foldl (fun s t => s + t.amount) 0

/-- `recurringExpenses` of `projectionData` (source lines 148 to 150). -/
def recurringExpenses (transactions : List Transaction) : ℚ :=
  sumAmounts (transactions.filter (fun t =>
    t.is_recurring && (t.type == TType.fixed_expense || t.type == TType.variable_expense)))

/-- `recurringIncome` of `projectionData` (source lines 151 to 153). -/
def recurringIncome (transactions : List Transaction) : ℚ :=
  sumAmounts (transactions.filter (fun t =>
    t.is_recurring && (t.type == TType.income || t.type == TType.variable_income)))

/-- The current net balance used by `projectionData` (source line 157) and
by the header display:
`summary.income + summary.variable_income - summary.fixed - summary.variable`. -/
def netBalance (s : Summary) : ℚ :=
  s.income + s.variable_income - s.fixed - s.variable_

/-- `projectionData` of the source (lines 146 to 159): six projected
balances, one per month index 0 to 5.  The source pairs each balance with a
locale month label derived from the current date; the label is display-only
and omitted here. -/
def projectionData (transactions : List Transaction) (summary : Summary) : List ℚ :=
  (List.range 6).map (fun i =>
    (recurringIncome transactions - recurringExpenses transactions) * ((i : ℚ) + 1)
      + netBalance summary)

/-- The displayed one-year estimate `projectionData[5].balance * 2`
(source line 573).  The list always has six entries, so index 5 exists;
`getD` with default 0 is used for totality. -/
def oneYearEstimate (transactions : List Transaction) (summary : Summary) : ℚ :=
  (projectionData transactions summary).getD 5 0 * 2

/-- One update step of the accumulator object of `categoryData`:
`acc[c] = (acc[c] || 0) + a`.  The accumulator is an association list in
JavaScript object key order: an existing key keeps its position, a new key
is appended at the end. -/
def updateAcc : List (String × ℚ) → String → ℚ → List (String × ℚ)
  | [], c, a => [(c, a)]
  | (k, v) :: rest, c, a =>
    if k = c then (k, v + a) :: rest else (k, v) :: updateAcc rest c a

/-- `categoryData` of the source (lines 136 to 143): category totals of the
non-income transactions, as (category, total) pairs in first-seen order. -/
def categoryData (transactions : List Transaction) : List (String × ℚ) :=
  transactions.foldl
    (fun acc t =>
      if t.type ≠ TType.income ∧ t.type ≠ TType.variable_income then
        updateAcc acc t.category t.amount
      else acc)
    []

/-- Value stored under key `c` in the accumulator (0 when absent), i.e. the
category bucket read off the JavaScript object. -/
def getVal (l : List (String × ℚ)) (c : String) : ℚ :=
  ((l.filter (fun p => p.1 == c)).map (fun p => p.2)).sum

/-- Sum of all values of the accumulator: the total over all category
buckets. -/
def valuesSum (l : List (String × ℚ)) : ℚ :=
  (l.map (fun p => p.2)).sum

/-- The four report granularities of `ReportsView` (source line 826). -/
inductive Granularity where
  | monthly
  | quarterly
  | semiannual
  | annual
deriving DecidableEq, Repr

/-- One row of `getPeriodData`: a period label with income and expense
totals. -/
structure Bucket where
  label : String
  income : ℚ
  expenses : ℚ
deriving DecidableEq, Repr

/-- Portuguese month name of the zero-based month index, as produced by
`format(new Date(currentYear, i, 1), 'MMMM', ptBR)` in the source. -/
def monthName : Nat → String
  | 0 => "janeiro"
  | 1 => "fevereiro"
  | 2 => "março"
  | 3 => "abril"
  | 4 => "maio"
  | 5 => "junho"
  | 6 => "julho"
  | 7 => "agosto"
  | 8 => "setembro"
  | 9 => "outubro"
  | 10 => "novembro"
  | _ => "dezembro"

/-- The date-fns `getQuarter` helper: quarter 1 covers months 0 to 2, and
so on. -/
def getQuarter (d : SDate) : Nat :=
  d.month / 3 + 1

/-- `getPeriodData` of the source (lines 856 to 906): the periodic report
rows for the requested year at the requested granularity. -/
def getPeriodData (transactions : List Transaction) (currentYear : Int)
    (period : Granularity) : List Bucket :=
  match period with
  | .monthly =>
    (List.range 12).map (fun i =>
      let monthTransactions := transactions.filter (fun t =>
        t.date.month == i && t.date.year == currentYear)
      { label := monthName i
        income := sumAmounts (monthTransactions.filter (fun t =>
          t.type == TType.income || t.type == TType.variable_income))
        expenses := sumAmounts (monthTransactions.filter (fun t =>
          t.type == TType.fixed_expense || t.type == TType.variable_expense)) })
  | .quarterly =>
    (List.range 4).map (fun j =>
      let i := j + 1
      let quarterTransactions := transactions.filter (fun t =>
        getQuarter t.date == i && t.date.year == currentYear)
      { label := toString i ++ "º Trimestre"
        income := sumAmounts (quarterTransactions.filter (fun t =>
          t.type == TType.income || t.type == TType.variable_income))
        expenses := sumAmounts (quarterTransactions.filter (fun t =>
          t.type == TType.fixed_expense || t.type == TType.variable_expense)) })
  | .semiannual =>
    (List.range 2).map (fun j =>
      let i := j + 1
      let semesterTransactions := transactions.filter (fun t =>
        (if i = 1 then decide (t.date.month < 6) else decide (6 ≤ t.date.month))
          && t.date.year == currentYear)
      { label := toString i ++ "º Semestre"
        income := sumAmounts (semesterTransactions.filter (fun t =>
          t.type == TType.income || t.type == TType.variable_income))
        expenses := sumAmounts (semesterTransactions.filter (fun t =>
          t.type == TType.fixed_expense || t.type == TType.variable_expense)) })
  | .annual =>
    let annualTransactions := transactions.filter (fun t =>
      t.date.year == currentYear)
    [{ label := "Ano " ++ toString currentYear
       income := sumAmounts (annualTransactions.filter (fun t =>
         t.type == TType.income || t.type == TType.variable_income))
       expenses := sumAmounts (annualTransactions.filter (fun t =>
         t.type == TType.fixed_expense || t.type == TType.variable_expense)) }]

/-! ### Helper lemmas about the tax estimator -/

/-- The pension contribution is monotone below the last bracket bound. -/
lemma inss_mono_of_le (g₁ g₂ : ℚ) (h : g₁ ≤ g₂) (h2 : g₂ ≤ 7786.02) :
    inss g₁ ≤ inss g₂ := by
  unfold inss
  split_ifs <;> linarith

/-- Above the last bracket bound the pension contribution is the flat
908.85. -/
lemma inss_flat (g : ℚ) (h : 7786.02 < g) : inss g = 908.85 := by
  unfold inss
  split_ifs <;> first | rfl | linarith

/-- Global bound on the pension contribution for non-negative income: the
largest value is taken at the bracket bound 7786.02. -/
lemma inss_le_bound (g : ℚ) : inss g ≤ 908.8618 := by
  unfold inss
  split_ifs <;> linarith

/-- The income tax is never negative, on any taxable base. -/
lemma irpf_nonneg (b : ℚ) : 0 ≤ irpf b := by
  unfold irpf
  split_ifs <;> linarith

/-- Quasi-monotonicity of the income tax: a larger base can lower the tax
by at most 0.00125, the size of the downward jumps at the bracket bounds
2826.65 and 3751.05. -/
lemma irpf_quasi_mono (b₁ b₂ : ℚ) (h : b₁ ≤ b₂) :
    irpf b₁ ≤ irpf b₂ + 0.00125 := by
  unfold irpf
  split_ifs <;> linarith

/-- The taxable base `g - inss g` is monotone in the gross income. -/
lemma base_mono (g₁ g₂ : ℚ) (h : g₁ ≤ g₂) :
    g₁ - inss g₁ ≤ g₂ - inss g₂ := by
  unfold inss
  split_ifs <;> linarith

/-! ### Claim C1 -/

/-- C1 (counterexample): the pension contribution is neither non-decreasing
nor capped at 908.85.  At the bracket bound 7786.02 the marginal formula
yields 908.8618, strictly above the flat 908.85 returned just past the
bound, so the function steps down there and exceeds the claimed cap. -/
theorem inss_cap_counterexample :
    (0 : ℚ) ≤ 7786.02 ∧ (7786.02 : ℚ) ≤ 7786.03 ∧
      inss 7786.03 < inss 7786.02 ∧ 908.85 < inss 7786.02 := by
  refine ⟨by norm_num, by norm_num, ?_, ?_⟩ <;> norm_num [inss]

/-- C1 (amended): for gross incomes `0 ≤ g₁ ≤ g₂` the pension contribution
is non-decreasing as long as `g₂` stays at or below the bracket bound
7786.02, it is the constant 908.85 strictly above that bound, and it never
exceeds 908.8618, the value the marginal formula takes at the bound
itself. -/
theorem inss_monotone_capped (g₁ g₂ : ℚ) (_h0 : 0 ≤ g₁) (h : g₁ ≤ g₂) :
    (g₂ ≤ 7786.02 → inss g₁ ≤ inss g₂) ∧
      (7786.02 < g₁ → inss g₁ = inss g₂) ∧
      inss g₂ ≤ 908.8618 := by
  refine ⟨fun h2 => inss_mono_of_le g₁ g₂ h h2, fun h1 => ?_, inss_le_bound g₂⟩
  rw [inss_flat g₁ h1, inss_flat g₂ (lt_of_lt_of_le h1 h)]

/-- Witness for C1 at the concrete incomes 1000 and 5000. -/
theorem inss_monotone_capped_witness :
    (0 : ℚ) ≤ 1000 ∧ (1000 : ℚ) ≤ 5000 ∧
      (((5000 : ℚ) ≤ 7786.02 → inss 1000 ≤ inss 5000) ∧
        ((7786.02 : ℚ) < 1000 → inss 1000 = inss 5000) ∧
        inss 5000 ≤ 908.8618) :=
  ⟨by norm_num, by norm_num, inss_monotone_capped 1000 5000 (by norm_num) (by norm_num)⟩

/-! ### Claim C2 -/

/-- C2 (counterexample): crossing the taxable-base bound 2826.65 produces a
downward jump in the income tax.  The gross income 3406837/1100 has taxable
base exactly 2826.65 and tax 42.55875, while the larger gross income
1362737/440 (= 3406837/1100 + 1/200) has taxable base 2826.6544 and the
strictly smaller tax 42.55816. -/
theorem irpf_downward_jump_counterexample :
    (0 : ℚ) ≤ 3406837 / 1100 ∧ (3406837 / 1100 : ℚ) ≤ 1362737 / 440 ∧
      (calculateTaxes (1362737 / 440)).irpf < (calculateTaxes (3406837 / 1100)).irpf := by
  refine ⟨by norm_num, by norm_num, ?_⟩
  norm_num [calculateTaxes, inss, irpf]

/-- C2 (amended): for gross incomes `g₁ ≤ g₂` the income tax is always
non-negative, and quasi-monotone: it can decrease by at most 0.00125, the
exact size of the downward jumps at the taxable-base bounds 2826.65 and
3751.05 (the subtraction constants do not smooth those bounds exactly; the
first bound 2259.20 is smooth and the last bound 4664.68 jumps upward). -/
theorem irpf_nonneg_quasi_monotone (g₁ g₂ : ℚ) (h : g₁ ≤ g₂) :
    0 ≤ (calculateTaxes g₁).irpf ∧
      (calculateTaxes g₁).irpf ≤ (calculateTaxes g₂).irpf + 0.00125 := by
  refine ⟨irpf_nonneg _, ?_⟩
  exact irpf_quasi_mono _ _ (base_mono _ _ h)

/-- Witness for C2 at the concrete incomes 1000 and 5000. -/
theorem irpf_nonneg_quasi_monotone_witness :
    (1000 : ℚ) ≤ 5000 ∧
      (0 ≤ (calculateTaxes 1000).irpf ∧
        (calculateTaxes 1000).irpf ≤ (calculateTaxes 5000).irpf + 0.00125) :=
  ⟨by norm_num, irpf_nonneg_quasi_monotone 1000 5000 (by norm_num)⟩

/-! ### Claim C6 -/

/-- C6 (counterexample): a negative gross income does not yield zero
deductions.  At gross income -100 the pension contribution is -7.5 (not 0)
and the net is -92.5 (not -100). -/
theorem taxes_neg_counterexample :
    (-100 : ℚ) ≤ 0 ∧
      (calculateTaxes (-100)).inss = -7.5 ∧ (calculateTaxes (-100)).inss ≠ 0 ∧
      (calculateTaxes (-100)).net = -92.5 ∧ (calculateTaxes (-100)).net ≠ -100 := by
  norm_num [calculateTaxes, inss, irpf]

/-- C6 (amended): a gross income `g ≤ 0` is not rejected; the estimator
returns pension contribution `0.075 * g` (the first bracket formula, which
is negative for negative income), income tax 0, and net `0.925 * g`.  In
particular at `g = 0` both deductions are 0 and the net equals the gross. -/
theorem taxes_nonpos_income (g : ℚ) (h : g ≤ 0) :
    (calculateTaxes g).inss = g * 0.075 ∧ (calculateTaxes g).irpf = 0 ∧
      (calculateTaxes g).net = g * 0.925 := by
  have h1 : inss g = g * 0.075 := by
    unfold inss
    split_ifs <;> first | rfl | linarith
  have h2 : irpf (g - g * 0.075) = 0 := by
    unfold irpf
    rw [if_pos]
    linarith
  refine ⟨h1, ?_, ?_⟩
  · show irpf (g - inss g) = 0
    rw [h1, h2]
  · show g - inss g - irpf (g - inss g) = g * 0.925
    rw [h1, h2]
    ring

/-- Witness for C6 at the concrete gross income 0. -/
theorem taxes_nonpos_income_witness :
    (0 : ℚ) ≤ 0 ∧
      ((calculateTaxes 0).inss = 0 * 0.075 ∧ (calculateTaxes 0).irpf = 0 ∧
        (calculateTaxes 0).net = 0 * 0.925) :=
  ⟨le_refl 0, taxes_nonpos_income 0 (le_refl 0)⟩

/-! ### Claim C7 -/

/-- C7 (confirmed): with installment count 1 the recurrence resolver
returns the start date unchanged, for every valid calendar start date
(month index below 12, day of month no larger than the length of its
month). -/
theorem getEndDate_one (d : SDate) (hm : d.month < 12)
    (hd : d.day ≤ daysInMonth d.year d.month) :
    getEndDate d 1 = d := by
  cases d with
  | mk y m day =>
    simp only [getEndDate, addMonths] at *
    simp [Nat.div_eq_of_lt hm, Nat.mod_eq_of_lt hm, min_eq_left hd]

/-- Witness for C7 at the concrete start date 2025-01-15. -/
theorem getEndDate_one_witness :
    ((⟨2025, 0, 15⟩ : SDate).month < 12 ∧
      (⟨2025, 0, 15⟩ : SDate).day ≤ daysInMonth (2025 : Int) 0) ∧
      getEndDate ⟨2025, 0, 15⟩ 1 = ⟨2025, 0, 15⟩ :=
  ⟨⟨by decide, by decide⟩, getEndDate_one ⟨2025, 0, 15⟩ (by decide) (by decide)⟩

/-! ### Claim C9 -/

/-- C9 (confirmed): the recurrence resolver clamps to the last day of the
target month and never overflows into the following month: the day of the
result never exceeds the length of the result month, the result month is
exactly the start month advanced by `n` modulo 12, and concretely a
recurring transaction starting 2025-01-31 with 2 installments ends on
2025-02-28 (February, not March). -/
theorem addMonths_clamps (d : SDate) (n : Nat) :
    (addMonths d n).day ≤ daysInMonth (addMonths d n).year (addMonths d n).month ∧
      (addMonths d n).month = (d.month + n) % 12 ∧
      getEndDate ⟨2025, 0, 31⟩ 2 = ⟨2025, 1, 28⟩ :=
  ⟨min_le_right _ _, rfl, by decide⟩

/-! ### Helper lemmas about the projection engine -/

/-- The projection list written out: one balance per month index 0 to 5. -/
lemma projectionData_eq (ts : List Transaction) (s : Summary) :
    projectionData ts s =
      [(recurringIncome ts - recurringExpenses ts) * 1 + netBalance s,
       (recurringIncome ts - recurringExpenses ts) * 2 + netBalance s,
       (recurringIncome ts - recurringExpenses ts) * 3 + netBalance s,
       (recurringIncome ts - recurringExpenses ts) * 4 + netBalance s,
       (recurringIncome ts - recurringExpenses ts) * 5 + netBalance s,
       (recurringIncome ts - recurringExpenses ts) * 6 + netBalance s] := by
  norm_num [projectionData, List.range_succ]

/-! ### Claim C3 -/

/-- C3 (confirmed): the projected balance sequence is an arithmetic
progression: entry 0 is the current net balance plus the recurring monthly
difference, and each later entry adds the same difference again. -/
theorem projection_arithmetic (ts : List Transaction) (s : Summary) (i : Nat)
    (h : i + 1 < 6) :
    (projectionData ts s).getD 0 0 =
        netBalance s + (recurringIncome ts - recurringExpenses ts) ∧
      (projectionData ts s).getD (i + 1) 0 =
        (projectionData ts s).getD i 0 + (recurringIncome ts - recurringExpenses ts) := by
  constructor
  · simp [projectionData_eq]
    ring
  · have hi : i < 5 := by omega
    interval_cases i <;> simp [projectionData_eq] <;> ring

/-- Witness for C3 on a concrete transaction list, summary and index. -/
theorem projection_arithmetic_witness :
    2 + 1 < 6 ∧
      ((projectionData [] ⟨100, 20, 30, 10, 0⟩).getD 0 0 =
          netBalance ⟨100, 20, 30, 10, 0⟩ +
            (recurringIncome [] - recurringExpenses []) ∧
        (projectionData [] ⟨100, 20, 30, 10, 0⟩).getD (2 + 1) 0 =
          (projectionData [] ⟨100, 20, 30, 10, 0⟩).getD 2 0 +
            (recurringIncome [] - recurringExpenses [])) :=
  ⟨by norm_num, projection_arithmetic [] ⟨100, 20, 30, 10, 0⟩ 2 (by norm_num)⟩

/-! ### Claim C10 -/

/-- C10 (confirmed): the displayed one-year estimate is exactly twice the
sixth projected balance, i.e. `2 * currentNetBalance + 12 * (recurringIncome
- recurringExpense)`, and it coincides with the month-12 value of the linear
projection exactly when the current net balance is 0. -/
theorem oneYearEstimate_eq (ts : List Transaction) (s : Summary) :
    oneYearEstimate ts s =
        2 * netBalance s + 12 * (recurringIncome ts - recurringExpenses ts) ∧
      (oneYearEstimate ts s =
          (recurringIncome ts - recurringExpenses ts) * 12 + netBalance s ↔
        netBalance s = 0) := by
  have h5 : (projectionData ts s).getD 5 0 =
      (recurringIncome ts - recurringExpenses ts) * 6 + netBalance s := by
    simp [projectionData_eq]
  constructor
  · simp only [oneYearEstimate, h5]
    ring
  · simp only [oneYearEstimate, h5]
    constructor <;> intro hh <;> linarith

/-! ### Helper lemmas about the category aggregation -/

/-- Summation of amounts with an arbitrary initial accumulator. -/
lemma foldl_add_amount (l : List Transaction) (init : ℚ) :
    l.foldl (fun s t => s + t.amount) init = init + (l.map (fun t => t.amount)).sum := by
  induction l generalizing init with
  | nil => simp
  | cons t ts ih =>
    rw [List.foldl_cons, ih]
    simp
    ring

/-- `sumAmounts` over a cons cell. -/
lemma sumAmounts_cons (t : Transaction) (l : List Transaction) :
    sumAmounts (t :: l) = t.amount + sumAmounts l := by
  simp [sumAmounts, List.foldl_cons, foldl_add_amount]

/-- Reading one key of a cons cell of the accumulator. -/
lemma getVal_cons (k : String) (v : ℚ) (rest : List (String × ℚ)) (c : String) :
    getVal ((k, v) :: rest) c = (if k = c then v else 0) + getVal rest c := by
  by_cases h : k = c <;> simp [getVal, List.filter_cons, h]

/-- Updating key `c` changes the value read at `c'` by `a` exactly when
`c = c'`. -/
lemma getVal_updateAcc (l : List (String × ℚ)) (c : String) (a : ℚ) (c' : String) :
    getVal (updateAcc l c a) c' = getVal l c' + if c = c' then a else 0 := by
  induction l with
  | nil =>
    simp only [updateAcc, getVal_cons]
    have h0 : getVal [] c' = 0 := rfl
    rw [h0]
    ring
  | cons hd tl ih =>
    obtain ⟨k, v⟩ := hd
    by_cases hk : k = c
    · subst hk
      rw [show updateAcc ((k, v) :: tl) k a = (k, v + a) :: tl from by
        simp [updateAcc]]
      rw [getVal_cons, getVal_cons]
      by_cases hc : k = c'
      · simp [hc]
        ring
      · simp [hc]
    · rw [show updateAcc ((k, v) :: tl) c a = (k, v) :: updateAcc tl c a from by
        simp [updateAcc, hk]]
      rw [getVal_cons, getVal_cons, ih]
      ring

/-- The total of all values over a cons cell of the accumulator. -/
lemma valuesSum_cons (k : String) (v : ℚ) (l : List (String × ℚ)) :
    valuesSum ((k, v) :: l) = v + valuesSum l := by
  simp [valuesSum]

/-- Updating one key adds `a` to the total of all values. -/
lemma valuesSum_updateAcc (l : List (String × ℚ)) (c : String) (a : ℚ) :
    valuesSum (updateAcc l c a) = valuesSum l + a := by
  induction l with
  | nil => simp [updateAcc, valuesSum]
  | cons hd tl ih =>
    obtain ⟨k, v⟩ := hd
    simp only [updateAcc]
    split_ifs with hk
    · simp only [valuesSum_cons]
      ring
    · simp only [valuesSum_cons, ih]
      ring

/-- Fold invariant for the per-category reading of `categoryData`. -/
lemma categoryData_invariant (ts : List Transaction) (acc : List (String × ℚ))
    (c : String) :
    getVal (ts.foldl
        (fun acc t =>
          if t.type ≠ TType.income ∧ t.type ≠ TType.variable_income then
            updateAcc acc t.category t.amount
          else acc)
        acc) c
      = getVal acc c +
        sumAmounts (ts.filter (fun t =>
          (t.type == TType.fixed_expense || t.type == TType.variable_expense)
            && t.category == c)) := by
  induction ts generalizing acc with
  | nil => simp [sumAmounts]
  | cons t ts ih =>
    rw [List.foldl_cons, ih, List.filter_cons]
    cases hty : t.type <;>
      by_cases hc : t.category = c <;>
        simp [hty, hc, getVal_updateAcc, sumAmounts_cons] <;> ring

/-- Fold invariant for the total over all categories of `categoryData`. -/
lemma categoryData_sum_invariant (ts : List Transaction) (acc : List (String × ℚ)) :
    valuesSum (ts.foldl
        (fun acc t =>
          if t.type ≠ TType.income ∧ t.type ≠ TType.variable_income then
            updateAcc acc t.category t.amount
          else acc)
        acc)
      = valuesSum acc +
        sumAmounts (ts.filter (fun t =>
          t.type == TType.fixed_expense || t.type == TType.variable_expense)) := by
  induction ts generalizing acc with
  | nil => simp [sumAmounts]
  | cons t ts ih =>
    rw [List.foldl_cons, ih, List.filter_cons]
    cases hty : t.type <;>
      simp [hty, valuesSum_updateAcc, sumAmounts_cons] <;> ring

/-! ### Claim C5 -/

/-- C5 (confirmed): income-type transactions contribute to no category
bucket (removing one from anywhere in the list leaves `categoryData`
unchanged); each category bucket, the empty label included, holds exactly
the total of the expense-type transactions carrying that label; and the
values of all buckets sum to the total of all expense-type amounts. -/
theorem categoryData_spec (ts ts₁ ts₂ : List Transaction) (c : String)
    (t : Transaction)
    (h : t.type = TType.income ∨ t.type = TType.variable_income) :
    categoryData (ts₁ ++ t :: ts₂) = categoryData (ts₁ ++ ts₂) ∧
      getVal (categoryData ts) c =
        sumAmounts (ts.filter (fun t =>
          (t.type == TType.fixed_expense || t.type == TType.variable_expense)
            && t.category == c)) ∧
      valuesSum (categoryData ts) =
        sumAmounts (ts.filter (fun t =>
          t.type == TType.fixed_expense || t.type == TType.variable_expense)) := by
  refine ⟨?_, ?_, ?_⟩
  · simp only [categoryData, List.foldl_append, List.foldl_cons]
    rcases h with h | h <;> simp [h]
  · have := categoryData_invariant ts [] c
    simpa [categoryData, getVal] using this
  · have := categoryData_sum_invariant ts []
    simpa [categoryData, valuesSum] using this

/-- Witness for C5 on concrete lists and a concrete income transaction. -/
theorem categoryData_spec_witness :
    ((⟨1, "w", 50, TType.income, "salary", ⟨2025, 0, 1⟩, false, none, none⟩ :
        Transaction).type = TType.income ∨
      (⟨1, "w", 50, TType.income, "salary", ⟨2025, 0, 1⟩, false, none, none⟩ :
        Transaction).type = TType.variable_income) ∧
      (categoryData
          ([⟨2, "r", 30, TType.fixed_expense, "home", ⟨2025, 0, 2⟩, false, none, none⟩]
            ++ (⟨1, "w", 50, TType.income, "salary", ⟨2025, 0, 1⟩, false, none, none⟩ :
              Transaction) :: []) =
          categoryData
            ([⟨2, "r", 30, TType.fixed_expense, "home", ⟨2025, 0, 2⟩, false, none, none⟩]
              ++ []) ∧
        getVal (categoryData
            [⟨2, "r", 30, TType.fixed_expense, "home", ⟨2025, 0, 2⟩, false, none, none⟩])
            "home" =
          sumAmounts
            ([⟨2, "r", 30, TType.fixed_expense, "home", ⟨2025, 0, 2⟩, false, none,
              none⟩].filter (fun t =>
                (t.type == TType.fixed_expense || t.type == TType.variable_expense)
                  && t.category == "home")) ∧
        valuesSum (categoryData
            [⟨2, "r", 30, TType.fixed_expense, "home", ⟨2025, 0, 2⟩, false, none, none⟩]) =
          sumAmounts
            ([⟨2, "r", 30, TType.fixed_expense, "home", ⟨2025, 0, 2⟩, false, none,
              none⟩].filter (fun t =>
                t.type == TType.fixed_expense || t.type == TType.variable_expense))) :=
  ⟨Or.inl rfl,
    categoryData_spec
      [⟨2, "r", 30, TType.fixed_expense, "home", ⟨2025, 0, 2⟩, false, none, none⟩]
      [⟨2, "r", 30, TType.fixed_expense, "home", ⟨2025, 0, 2⟩, false, none, none⟩] []
      "home" ⟨1, "w", 50, TType.income, "salary", ⟨2025, 0, 1⟩, false, none, none⟩
      (Or.inl rfl)⟩

/-! ### Claim C8 -/

/-- C8 (confirmed): a transaction dated outside the requested year
contributes to no bucket of the periodic report: for every granularity,
the report over a list containing it anywhere equals the report over the
list without it. -/
theorem outside_year_excluded (ts₁ ts₂ : List Transaction) (t : Transaction)
    (y : Int) (p : Granularity) (h : t.date.year ≠ y) :
    getPeriodData (ts₁ ++ t :: ts₂) y p = getPeriodData (ts₁ ++ ts₂) y p := by
  have hy : (t.date.year == y) = false := beq_eq_false_iff_ne.mpr h
  have hfil : ∀ q : Transaction → Bool, q t = false →
      (ts₁ ++ t :: ts₂).filter q = (ts₁ ++ ts₂).filter q := by
    intro q hq
    simp [List.filter_append, List.filter_cons, hq]
  cases p with
  | monthly =>
    simp only [getPeriodData]
    refine List.map_congr_left fun i _ => ?_
    rw [hfil _ (by simp [hy])]
  | quarterly =>
    simp only [getPeriodData]
    refine List.map_congr_left fun j _ => ?_
    rw [hfil _ (by simp [hy])]
  | semiannual =>
    simp only [getPeriodData]
    refine List.map_congr_left fun j _ => ?_
    rw [hfil _ (by simp [hy])]
  | annual =>
    simp only [getPeriodData]
    rw [hfil _ hy]

/-- Witness for C8 on a concrete transaction dated 2024 against the
requested year 2025. -/
theorem outside_year_excluded_witness :
    (⟨3, "o", 10, TType.income, "misc", ⟨2024, 4, 2⟩, false, none, none⟩ :
        Transaction).date.year ≠ (2025 : Int) ∧
      getPeriodData
          ([] ++ (⟨3, "o", 10, TType.income, "misc", ⟨2024, 4, 2⟩, false, none, none⟩ :
            Transaction) :: []) 2025 Granularity.monthly =
        getPeriodData ([] ++ []) 2025 Granularity.monthly :=
  ⟨by decide,
    outside_year_excluded [] [] ⟨3, "o", 10, TType.income, "misc", ⟨2024, 4, 2⟩,
      false, none, none⟩ 2025 Granularity.monthly (by decide)⟩

/-! ### Helper lemmas about bucket summation -/

/-- `sumAmounts` as a mapped sum. -/
lemma sumAmounts_eq (l : List Transaction) :
    sumAmounts l = (l.map (fun t => t.amount)).sum := by
  simp [sumAmounts, foldl_add_amount]

/-- A mapped sum of zeros vanishes. -/
lemma sum_map_zero {α : Type} (l : List α) :
    (l.map (fun _ => (0 : ℚ))).sum = 0 := by
  induction l <;> simp [*]

/-- A mapped sum distributes over pointwise addition. -/
lemma sum_map_add {α : Type} (l : List α) (A B : α → ℚ) :
    (l.map (fun i => A i + B i)).sum = (l.map A).sum + (l.map B).sum := by
  induction l with
  | nil => simp
  | cons x xs ih =>
    simp [ih]
    ring

/-- Filtered amount sum over a cons cell. -/
lemma sum_filter_cons (p : Transaction → Bool) (t : Transaction)
    (l : List Transaction) :
    ((List.filter p (t :: l)).map (fun t => t.amount)).sum
      = (if p t = true then t.amount else 0)
        + ((List.filter p l).map (fun t => t.amount)).sum := by
  rw [List.filter_cons]
  by_cases h : p t = true <;> simp [h]

/-- Splitting the month test out of the bucket condition. -/
lemma ite_month (qt : Bool) (m i : Nat) (Y : Bool) (a : ℚ) :
    (if (qt && (m == i && Y)) = true then a else 0)
      = if m = i then (if (qt && Y) = true then a else 0) else 0 := by
  by_cases h : m = i <;> simp [h]

/-- Summing an indicator over `range n` past its support gives zero. -/
lemma sum_range_pick_zero (n m : Nat) (c : ℚ) (h : n ≤ m) :
    ((List.range n).map (fun i => if m = i then c else 0)).sum = 0 := by
  induction n with
  | zero => simp
  | succ k ih =>
    rw [List.range_succ]
    have hk : k ≤ m := Nat.le_of_succ_le h
    have hne : m ≠ k := by omega
    simp [ih hk, hne]

/-- Summing an indicator over `range n` inside its support picks the
value. -/
lemma sum_range_pick (n m : Nat) (c : ℚ) (h : m < n) :
    ((List.range n).map (fun i => if m = i then c else 0)).sum = c := by
  induction n with
  | zero => omega
  | succ k ih =>
    rw [List.range_succ]
    by_cases hm : m = k
    · simp only [List.map_append, List.sum_append, List.map_cons, List.map_nil,
        List.sum_cons, List.sum_nil]
      rw [sum_range_pick_zero k m c (by omega)]
      simp [hm]
    · have hk : m < k := by omega
      simp [ih hk, hm]

/-- Each transaction with a valid month lands in exactly one of the twelve
monthly buckets: summing any filtered amount total over the twelve month
conditions equals the total under the year condition alone. -/
lemma bucket_month_sum (q : Transaction → Bool) (ts : List Transaction) (y : Int)
    (h : ∀ t ∈ ts, t.date.month < 12) :
    ((List.range 12).map (fun i =>
        ((ts.filter (fun t => q t && (t.date.month == i && t.date.year == y))).map
          (fun t => t.amount)).sum)).sum
      = ((ts.filter (fun t => q t && (t.date.year == y))).map
          (fun t => t.amount)).sum := by
  induction ts with
  | nil => simp [sum_map_zero]
  | cons t ts ih =>
    have hm : t.date.month < 12 := h t (List.mem_cons_self t ts)
    have ih' := ih fun t' ht' => h t' (List.mem_cons_of_mem t ht')
    have step1 : ((List.range 12).map (fun i =>
        ((List.filter (fun t' => q t' && (t'.date.month == i && t'.date.year == y))
          (t :: ts)).map (fun t => t.amount)).sum)).sum
        = ((List.range 12).map (fun i =>
            (if (q t && (t.date.month == i && t.date.year == y)) = true then
              t.amount else 0)
            + ((List.filter (fun t' => q t' && (t'.date.month == i && t'.date.year == y))
                ts).map (fun t => t.amount)).sum)).sum := by
      refine congrArg List.sum (List.map_congr_left fun i _ => ?_)
      exact sum_filter_cons _ t ts
    have step2 : ((List.range 12).map (fun i =>
        (if (q t && (t.date.month == i && t.date.year == y)) = true then
          t.amount else 0))).sum
        = if (q t && (t.date.year == y)) = true then t.amount else 0 := by
      have heq : ∀ i : Nat,
          (if (q t && (t.date.month == i && t.date.year == y)) = true then
            t.amount else 0)
          = if t.date.month = i then
              (if (q t && (t.date.year == y)) = true then t.amount else 0)
            else 0 :=
        fun i => ite_month (q t) t.date.month i (t.date.year == y) t.amount
      rw [congrArg List.sum (List.map_congr_left fun i _ => heq i)]
      exact sum_range_pick 12 t.date.month _ hm
    rw [step1, sum_map_add, step2, ih', sum_filter_cons]

/-! ### Claim C4 -/

/-- C4 (confirmed): for every transaction list with valid calendar months
and every target year, the incomes of the twelve monthly report buckets sum
to the income of the single annual report bucket for the same year. -/
theorem monthly_annual_income_consistency (ts : List Transaction) (y : Int)
    (h : ∀ t ∈ ts, t.date.month < 12) :
    ((getPeriodData ts y Granularity.monthly).map Bucket.income).sum
      = ((getPeriodData ts y Granularity.annual).map Bucket.income).sum := by
  simp only [getPeriodData, List.map_map, Function.comp, List.map_cons,
    List.map_nil, List.sum_cons, List.sum_nil, add_zero, sumAmounts_eq,
    List.filter_filter]
  exact bucket_month_sum
    (fun t => t.type == TType.income || t.type == TType.variable_income) ts y h

/-- Witness for C4 on a concrete one-transaction list. -/
theorem monthly_annual_income_consistency_witness :
    (∀ t ∈ [(⟨4, "s", 25, TType.variable_income, "pay", ⟨2025, 7, 9⟩, false, none,
        none⟩ : Transaction)], t.date.month < 12) ∧
      ((getPeriodData [⟨4, "s", 25, TType.variable_income, "pay", ⟨2025, 7, 9⟩,
          false, none, none⟩] 2025 Granularity.monthly).map Bucket.income).sum
        = ((getPeriodData [⟨4, "s", 25, TType.variable_income, "pay", ⟨2025, 7, 9⟩,
            false, none, none⟩] 2025 Granularity.annual).map Bucket.income).sum :=
  ⟨by decide,
    monthly_annual_income_consistency
      [⟨4, "s", 25, TType.variable_income, "pay", ⟨2025, 7, 9⟩, false, none, none⟩]
      2025 (by decide)⟩

end Finance
